import Mathlib

/-!
Verification of the client-side orchestration logic of the AITraffic
frontend (React), shallowly embedded in Lean 4.

Sources embedded:
- `src/unnamed/part_002` (`ImageUpload` component): the upload store —
  `onDrop` (bulk assignment), `removeImage`, `handleIndividualUpload`,
  including its `onImagesUpload` notification discipline.
- `src/unnamed/part_000` (`App` component): `handleImagesUpload`,
  `handleAnalyzeTraffic`, the analyze button's `disabled` predicate.
- `src/frontend/src/services/api.js`: the axios response interceptor
  (error classification) and `analyzeTraffic` (which returns
  `response.data` unvalidated on a 2xx response).
- `src/unnamed/part_001` (`AnalysisResults` component): the
  `totalVehicles` / `greenSignals` projections.

JavaScript objects are embedded as insertion-ordered association lists
(`List (String × ·)`), which is faithful to `Object.keys` /
`Object.values` enumeration order and to the fact that assigning to a
fresh key (including the coerced key "undefined") appends it.
Asynchronous `FileReader.onload` callbacks inside one `onDrop` call are
modelled as completing sequentially in file order (the deterministic
in-order schedule).
-/

/-- A file handed to the store by the drop zone or the file picker.
Only the attributes the code reads (`name`, `size`) are modelled. -/
structure File where
  name : String
  size : Nat
deriving DecidableEq, Repr

/-- The value stored in one direction slot by the `ImageUpload` component:
`{ file, preview: e.target.result, name: file.name, size: file.size }`.
The `FileReader` preview is modelled as a pure function of the file. -/
structure ImageData where
  file : File
  preview : String
  name : String
  size : Nat
deriving DecidableEq, Repr

/-- Builds the slot value exactly as the `reader.onload` callbacks do. -/
def mkImageData (f : File) : ImageData :=
  { file := f, preview := "data:" ++ f.name, name := f.name, size := f.size }

/-- The `images` state object of the `ImageUpload` component: a JavaScript
object mapping direction-name keys to `ImageData` or `null`, embedded as
an insertion-ordered association list. -/
abbrev UploadState := List (String × Option ImageData)

/-- `Object.keys`, in insertion order. -/
def objKeys (s : UploadState) : List String := s.map Prod.fst

/-- `Object.values`, in insertion order. -/
def objValues (s : UploadState) : List (Option ImageData) := s.map Prod.snd

/-- Property read `s[k]`: `none` when the key is absent (JS `undefined`),
`some v` when present with value `v` (`v = none` embeds JS `null`). -/
def objGet (s : UploadState) (k : String) : Option (Option ImageData) :=
  match s with
  | [] => none
  | (k', v') :: rest => if k' = k then some v' else objGet rest k

/-- Property write `s[k] = v`: updates in place when the key exists
(preserving enumeration order), appends otherwise. -/
def objSet (s : UploadState) (k : String) (v : Option ImageData) : UploadState :=
  match s with
  | [] => [(k, v)]
  | (k', v') :: rest => if k' = k then (k', v) :: rest else (k', v') :: objSet rest k v

/-- The canonical direction order used by the bulk path:
`const directions = ['north', 'south', 'east', 'west']`. -/
def directions : List String := ["north", "south", "east", "west"]

/-- The initial `useState` value: all four slots `null`. -/
def initialImages : UploadState :=
  [("north", none), ("south", none), ("east", none), ("west", none)]

/-- `!newImages[dir]` for a direction key: the slot exists and is `null`. -/
def isEmptySlot (s : UploadState) (d : String) : Bool :=
  decide (objGet s d = some none)

/-- The direction a decode callback writes to:
`acceptedFiles.length === 4 ? directions[index] : Object.keys(newImages)
.find(dir => !newImages[dir]) || directions[index]`. A missing
`directions[index]` is JS `undefined`, which coerces to the property key
"undefined" on assignment. `len` is `acceptedFiles.length`. -/
def dropTarget (len : Nat) (acc : UploadState) (index : Nat) : String :=
  if len = 4 then (directions.get? index).getD "undefined"
  else
    match (objKeys acc).find? (fun d => isEmptySlot acc d) with
    | some d => d
    | none => (directions.get? index).getD "undefined"

/-- One `reader.onload` callback body of `onDrop`: writes the decoded
slot at the computed target direction. -/
def dropStep (len : Nat) (acc : UploadState) (index : Nat) (file : File) : UploadState :=
  objSet acc (dropTarget len acc index) (some (mkImageData file))

/-- Sequential completion of the remaining `onDrop` callbacks, from
`index` on, also collecting the `onImagesUpload(newImages)` notifications:
each callback emits one only when every slot is non-null afterwards. -/
def dropGo (len : Nat) (index : Nat) (files : List File) (acc : UploadState)
    (ns : List UploadState) : UploadState × List UploadState :=
  match files with
  | [] => (acc, ns)
  | f :: fs =>
      dropGo len (index + 1) fs (dropStep len acc index f)
        (if (objValues (dropStep len acc index f)).all Option.isSome
          then ns ++ [dropStep len acc index f] else ns)

/-- `onDrop(acceptedFiles)` of the `ImageUpload` component: when exactly
4 files are dropped all four direction slots are reset to `null` first;
then every file's decode callback runs (modelled in file order).
Returns the final `images` state and the list of notification payloads
passed to `onImagesUpload`, in emission order. -/
def onDrop (images : UploadState) (acceptedFiles : List File) :
    UploadState × List UploadState :=
  dropGo acceptedFiles.length 0 acceptedFiles
    (if acceptedFiles.length = 4 then
      directions.foldl (fun s d => objSet s d none) images
    else images) []

/-- `removeImage(direction)`: sets the slot to `null` and always notifies
with the complete new state. -/
def removeImage (images : UploadState) (direction : String) :
    UploadState × List UploadState :=
  let newImages := objSet images direction none
  (newImages, [newImages])

/-- `handleIndividualUpload(direction, event)`: `event.target.files[0]`
is modelled as an `Option File`. With no file selected nothing happens;
with a file, the slot is overwritten and the complete new state is
passed to `onImagesUpload`. -/
def handleIndividualUpload (images : UploadState) (direction : String)
    (file : Option File) : UploadState × List UploadState :=
  match file with
  | none => (images, [])
  | some f =>
      let newImages := objSet images direction (some (mkImageData f))
      (newImages, [newImages])

example : (onDrop initialImages [⟨"a", 1⟩, ⟨"b", 2⟩, ⟨"c", 3⟩, ⟨"d", 4⟩]).fst =
    [("north", some (mkImageData ⟨"a", 1⟩)), ("south", some (mkImageData ⟨"b", 2⟩)),
     ("east", some (mkImageData ⟨"c", 3⟩)), ("west", some (mkImageData ⟨"d", 4⟩))] := by
  decide

example : objKeys (onDrop initialImages
    [⟨"a", 1⟩, ⟨"b", 2⟩, ⟨"c", 3⟩, ⟨"d", 4⟩, ⟨"e", 5⟩]).fst =
    ["north", "south", "east", "west", "undefined"] := by
  decide

example : (onDrop initialImages [⟨"a", 1⟩]).snd = [] := by decide

/-- The parsed JSON body of a 2xx `/analyze-traffic` response, as consumed
by the components. The three per-direction mappings are JavaScript
objects (association lists), so a body missing a direction key is
representable. Fields the claims never touch (timestamp, confidence,
processing time) are omitted. -/
structure ResponseBody where
  vehicle_counts : List (String × Nat)
  traffic_density : List (String × String)
  signal_states : List (String × String)
  recommendations : List String
deriving DecidableEq, Repr

/-- The outcome of the axios request, as discriminated by the response
interceptor in `api.js`: a 2xx response with a body, a non-2xx response
carrying `error.response.status` and the optional `error.response.data.error`
string, a request with no response (timeout / connection failure within
the 30000 ms bound), or a setup failure. -/
inductive HttpOutcome where
  | success (body : ResponseBody)
  | errorStatus (status : Nat) (errorField : Option String)
  | noResponse
  | setupFailure
deriving DecidableEq, Repr

/-- The fixed message thrown when the request got no response. -/
def noResponseMsg : String :=
  "No response from server. Please check if the backend is running."

/-- The message thrown when the request could not even be issued. -/
def requestFailedMsg : String :=
  "Request failed. Please check your connection."

/-- The message synthesized from the status code when
`error.response.data?.error` is absent or falsy. -/
def serverErrorMsg (status : Nat) : String :=
  "Server error: " ++ toString status

/-- The `api.interceptors.response` error handler composed with
`analyzeTraffic`: a 2xx response's `response.data` is returned unchanged
(no structural validation anywhere in `api.js`); otherwise the thrown
`Error` message follows `error.response.data?.error || ...` — note the
JavaScript `||`, under which an empty-string `error` field is falsy. -/
def interceptResponse (outcome : HttpOutcome) : Except String ResponseBody :=
  match outcome with
  | .success body => .ok body
  | .errorStatus status errorField =>
      .error (match errorField with
        | some s => if s = "" then serverErrorMsg status else s
        | none => serverErrorMsg status)
  | .noResponse => .error noResponseMsg
  | .setupFailure => .error requestFailedMsg

/-- The `App` component state: its copy of the upload state, the last
accepted analysis body, the `loading` flag, and the error message
(`error = none` is the Idle phase; `error = some _` is Failed). -/
structure AppState where
  images : UploadState
  analysis : Option ResponseBody
  loading : Bool
  error : Option String
deriving DecidableEq, Repr

/-- `Object.values(images).every(img => img !== null)`, used both as the
submit guard and (as `allImagesUploaded`) in the button predicate. -/
def allImagesUploaded (images : UploadState) : Bool :=
  (objValues images).all Option.isSome

/-- The validation message set when not all four slots are filled. -/
def incompleteMsg : String := "Please upload images for all four directions"

/-- The fallback used when the caught error has a falsy `message`. -/
def analyzeFallbackMsg : String := "Failed to analyze traffic. Please try again."

/-- `handleImagesUpload(uploadedImages)` in `App`: the registered
on-change notification target; stores the snapshot and clears the error. -/
def handleImagesUpload (st : AppState) (uploadedImages : UploadState) : AppState :=
  { st with images := uploadedImages, error := none }

/-- Runs a store operation's notification payloads through
`handleImagesUpload`, in emission order. -/
def processStoreOp (st : AppState) (opResult : UploadState × List UploadState) :
    AppState :=
  opResult.snd.foldl handleImagesUpload st

/-- `handleAnalyzeTraffic` in `App`. If any slot is empty it sets the
validation error and returns without calling `analyzeTraffic`; otherwise
it issues the request (second component `true`) and settles: on success
`analysis` is set to the raw body with `error` cleared, on a thrown error
`error` is set to `err.message || fallback`; `loading` ends `false`
either way (`finally`). There is no check of `loading` anywhere in the
function body. -/
def handleAnalyzeTraffic (st : AppState) (outcome : HttpOutcome) :
    AppState × Bool :=
  if allImagesUploaded st.images then
    match interceptResponse outcome with
    | .ok result =>
        ({ st with loading := false, error := none, analysis := some result }, true)
    | .error msg =>
        ({ st with loading := false,
                   error := some (if msg = "" then analyzeFallbackMsg else msg) }, true)
  else
    ({ st with error := some incompleteMsg }, false)

/-- The analyze button's `disabled={!allImagesUploaded || loading}`. -/
def analyzeButtonDisabled (st : AppState) : Bool :=
  !allImagesUploaded st.images || st.loading

/-- `totalVehicles` in `AnalysisResults` (and the identical expression in
the header stats): `Object.values(vehicle_counts).reduce((sum, count) =>
sum + count, 0)`. -/
def totalVehicles (body : ResponseBody) : Nat :=
  (body.vehicle_counts.map Prod.snd).foldl (fun sum count => sum + count) 0

/-- `greenSignals` in `AnalysisResults` (and the header stats):
`Object.values(signal_states).filter(state => state === 'green').length`. -/
def greenSignals (body : ResponseBody) : Nat :=
  ((body.signal_states.map Prod.snd).filter (fun state => state == "green")).length

example :
    totalVehicles ⟨[("north", 12), ("south", 5), ("east", 8), ("west", 3)], [], [], []⟩
      = 28 := by decide

example :
    greenSignals ⟨[], [], [("north", "green"), ("south", "red"), ("east", "green"),
      ("west", "red")], []⟩ = 2 := by decide

example : interceptResponse (.errorStatus 500 (some "model unavailable")) =
    .error "model unavailable" := rfl

example : interceptResponse (.errorStatus 500 (some "")) =
    .error "Server error: 500" := rfl

/-- A concrete fully-filled upload state, used in witnesses. -/
def sampleImages : UploadState :=
  [("north", some (mkImageData ⟨"n.jpg", 10⟩)),
   ("south", some (mkImageData ⟨"s.jpg", 20⟩)),
   ("east", some (mkImageData ⟨"e.jpg", 30⟩)),
   ("west", some (mkImageData ⟨"w.jpg", 40⟩))]

/-- A concrete well-formed response body (Scenario 3 of the spec). -/
def sampleBody : ResponseBody :=
  { vehicle_counts := [("north", 12), ("south", 5), ("east", 8), ("west", 3)],
    traffic_density := [("north", "high"), ("south", "low"), ("east", "medium"),
      ("west", "very_low")],
    signal_states := [("north", "green"), ("south", "red"), ("east", "red"),
      ("west", "red")],
    recommendations := [] }

/-- A concrete 2xx body whose `signal_states` object is missing the
"west" key (Scenario 6 of the spec). -/
def partialBody : ResponseBody :=
  { vehicle_counts := [("north", 12), ("south", 5), ("east", 8), ("west", 3)],
    traffic_density := [("north", "high"), ("south", "low"), ("east", "medium"),
      ("west", "very_low")],
    signal_states := [("north", "green"), ("south", "red"), ("east", "red")],
    recommendations := [] }

/-! ### Helper lemmas about the JavaScript-object embedding -/

theorem objKeys_cons (k : String) (v : Option ImageData) (rest : UploadState) :
    objKeys ((k, v) :: rest) = k :: objKeys rest := rfl

theorem objKeys_objSet_of_mem (s : UploadState) (k : String) (v : Option ImageData)
    (h : k ∈ objKeys s) : objKeys (objSet s k v) = objKeys s := by
  induction s with
  | nil => simp [objKeys] at h
  | cons p rest ih =>
      obtain ⟨k', v'⟩ := p
      by_cases hk : k' = k
      · simp [objSet, hk, objKeys_cons]
      · rw [objKeys_cons] at h
        rcases List.mem_cons.mp h with h1 | h2
        · exact absurd h1.symm hk
        · simp only [objSet, if_neg hk, objKeys_cons, ih h2]

theorem objKeys_foldl_objSet (l : List String) :
    ∀ s : UploadState, (∀ d ∈ l, d ∈ objKeys s) →
      objKeys (l.foldl (fun s d => objSet s d none) s) = objKeys s := by
  induction l with
  | nil => intro s _; rfl
  | cons d ds ih =>
      intro s h
      have hd : d ∈ objKeys s := h d (List.mem_cons_self d ds)
      have hset := objKeys_objSet_of_mem s d none hd
      rw [List.foldl_cons, ih (objSet s d none) ?_, hset]
      intro x hx
      rw [hset]
      exact h x (List.mem_cons_of_mem d hx)

theorem dropTarget_mem (len : Nat) (acc : UploadState) (index : Nat)
    (hk : objKeys acc = directions) (hidx : index < 4) :
    dropTarget len acc index ∈ objKeys acc := by
  have hmem : (directions.get? index).getD "undefined" ∈ directions := by
    interval_cases index <;> decide
  unfold dropTarget
  by_cases h4 : len = 4
  · rw [if_pos h4, hk]; exact hmem
  · rw [if_neg h4]
    rcases hfind : (objKeys acc).find? (fun d => isEmptySlot acc d) with _ | d
    · simp only [hfind]
      rw [hk]; exact hmem
    · simp only [hfind]
      exact List.mem_of_find?_eq_some hfind

theorem dropStep_keys (len : Nat) (acc : UploadState) (index : Nat) (f : File)
    (hk : objKeys acc = directions) (hidx : index < 4) :
    objKeys (dropStep len acc index f) = directions := by
  unfold dropStep
  rw [objKeys_objSet_of_mem _ _ _ (dropTarget_mem len acc index hk hidx), hk]

theorem dropGo_keys (files : List File) :
    ∀ (index : Nat) (acc : UploadState) (ns : List UploadState) (len : Nat),
      objKeys acc = directions → index + files.length ≤ 4 →
      objKeys (dropGo len index files acc ns).fst = directions := by
  induction files with
  | nil => intro _ acc _ _ hk _; exact hk
  | cons f fs ih =>
      intro index acc ns len hk hle
      rw [List.length_cons] at hle
      have hidx : index < 4 := by omega
      simp only [dropGo]
      exact ih (index + 1) _ _ len (dropStep_keys len acc index f hk hidx) (by omega)

theorem onDrop_keys (s : UploadState) (files : List File)
    (hk : objKeys s = directions) (hlen : files.length ≤ 4) :
    objKeys (onDrop s files).fst = directions := by
  unfold onDrop
  refine dropGo_keys files 0 _ [] files.length ?_ (by omega)
  by_cases h4 : files.length = 4
  · rw [if_pos h4, objKeys_foldl_objSet directions s ?_]
    · exact hk
    · intro d hd; rw [hk]; exact hd
  · rw [if_neg h4]; exact hk

theorem dropGo_snd_all_complete (files : List File) :
    ∀ (index : Nat) (acc : UploadState) (ns : List UploadState) (len : Nat),
      (∀ n ∈ ns, (objValues n).all Option.isSome = true) →
      ∀ n ∈ (dropGo len index files acc ns).snd,
        (objValues n).all Option.isSome = true := by
  induction files with
  | nil => intro _ _ ns _ h n hn; exact h n hn
  | cons f fs ih =>
      intro index acc ns len h n hn
      simp only [dropGo] at hn
      refine ih (index + 1) _ _ len ?_ n hn
      intro m hm
      by_cases hc : (objValues (dropStep len acc index f)).all Option.isSome = true
      · rw [if_pos hc] at hm
        rcases List.mem_append.mp hm with h1 | h2
        · exact h m h1
        · rw [List.mem_singleton.mp h2]; exact hc
      · rw [if_neg hc] at hm
        exact h m hm

theorem foldl_handleImagesUpload_analysis (ns : List UploadState) :
    ∀ st : AppState, (ns.foldl handleImagesUpload st).analysis = st.analysis := by
  induction ns with
  | nil => intro _; rfl
  | cons n ns ih => intro st; rw [List.foldl_cons, ih]; rfl

theorem foldl_handleImagesUpload_error (ns : List UploadState) :
    ∀ st : AppState, ns ≠ [] → (ns.foldl handleImagesUpload st).error = none := by
  induction ns with
  | nil => intro st h; exact absurd rfl h
  | cons n ns ih =>
      intro st _
      rw [List.foldl_cons]
      cases ns with
      | nil => rfl
      | cons m ms => exact ih (handleImagesUpload st n) (by simp)

/-- Upload states reachable from the initial empty state through the
store's operations, with bulk calls restricted to at most 4 files and
slot-addressed operations restricted to the four direction keys the
component renders. -/
inductive Reachable : UploadState → Prop where
  | init : Reachable initialImages
  | bulk (s : UploadState) (files : List File) (h : Reachable s)
      (hlen : files.length ≤ 4) : Reachable (onDrop s files).fst
  | single (s : UploadState) (d : String) (f : File) (h : Reachable s)
      (hd : d ∈ directions) : Reachable (handleIndividualUpload s d (some f)).fst
  | emptyPick (s : UploadState) (d : String) (h : Reachable s) :
      Reachable (handleIndividualUpload s d none).fst
  | rm (s : UploadState) (d : String) (h : Reachable s)
      (hd : d ∈ directions) : Reachable (removeImage s d).fst

/-! ### Claim theorems -/

/-- C1: on any upload state with an empty slot, `handleAnalyzeTraffic`
issues no network request (second component `false`), sets the
incomplete-upload validation message, and changes nothing else — the
Failed phase with the `ValidationError` message, whatever the request
outcome oracle would have been. -/
theorem submit_incomplete_validation (st : AppState) (outcome : HttpOutcome)
    (h : allImagesUploaded st.images = false) :
    handleAnalyzeTraffic st outcome = ({ st with error := some incompleteMsg }, false) := by
  simp [handleAnalyzeTraffic, h]

/-- Witness for C1 at a concrete incomplete state. -/
theorem submit_incomplete_validation_witness :
    allImagesUploaded initialImages = false ∧
    handleAnalyzeTraffic ⟨initialImages, none, false, none⟩ .noResponse =
      (⟨initialImages, none, false, some incompleteMsg⟩, false) :=
  ⟨by decide,
   submit_incomplete_validation ⟨initialImages, none, false, none⟩ .noResponse (by decide)⟩

/-- C2: dropping exactly 4 files on any prior state with the canonical
four keys resets every slot and assigns file *i* to the direction at
canonical index *i*, independent of file names and of the prior slot
contents. -/
theorem bulk_four_position_assignment (s : UploadState) (h : objKeys s = directions)
    (f0 f1 f2 f3 : File) :
    (onDrop s [f0, f1, f2, f3]).fst =
      [("north", some (mkImageData f0)), ("south", some (mkImageData f1)),
       ("east", some (mkImageData f2)), ("west", some (mkImageData f3))] := by
  rcases s with _ | ⟨⟨k0, v0⟩, _ | ⟨⟨k1, v1⟩, _ | ⟨⟨k2, v2⟩, _ | ⟨⟨k3, v3⟩, rest⟩⟩⟩⟩ <;>
    simp [objKeys, directions] at h
  obtain ⟨hk0, hk1, hk2, hk3, hrest⟩ := h
  subst hk0 hk1 hk2 hk3 hrest
  rfl

/-- Witness for C2 at a concrete prior state with a filled south slot. -/
theorem bulk_four_position_assignment_witness :
    (onDrop [("north", none), ("south", some (mkImageData ⟨"old.png", 99⟩)),
        ("east", none), ("west", none)]
      [⟨"a.png", 1⟩, ⟨"b.png", 2⟩, ⟨"c.png", 3⟩, ⟨"d.png", 4⟩]).fst =
      [("north", some (mkImageData ⟨"a.png", 1⟩)), ("south", some (mkImageData ⟨"b.png", 2⟩)),
       ("east", some (mkImageData ⟨"c.png", 3⟩)), ("west", some (mkImageData ⟨"d.png", 4⟩))] :=
  bulk_four_position_assignment _ (by decide) ⟨"a.png", 1⟩ ⟨"b.png", 2⟩ ⟨"c.png", 3⟩ ⟨"d.png", 4⟩

/-- C3 counterexample: with a request already in flight (`loading = true`)
and all slots filled, `handleAnalyzeTraffic` still issues a request
(second component `true`) — there is no `ReentrancyError` rejection
anywhere in the function. -/
theorem submit_while_loading_issues_request :
    (⟨sampleImages, none, true, none⟩ : AppState).loading = true ∧
    (handleAnalyzeTraffic ⟨sampleImages, none, true, none⟩ (.success sampleBody)).snd
      = true := by
  decide

/-- C3 amended: the in-flight protection lives in the UI, not in the
submit handler — the analyze button's `disabled` predicate is `true`
whenever `loading` is `true`, so a second submission cannot be triggered
through the button. -/
theorem analyze_button_disabled_while_loading (st : AppState)
    (h : st.loading = true) : analyzeButtonDisabled st = true := by
  simp [analyzeButtonDisabled, h]

/-- Witness for the amended C3 at a concrete loading state. -/
theorem analyze_button_disabled_while_loading_witness :
    analyzeButtonDisabled ⟨initialImages, none, true, none⟩ = true :=
  analyze_button_disabled_while_loading ⟨initialImages, none, true, none⟩ (by decide)

/-- C4 counterexample: a 2xx body whose `signal_states` object is missing
the "west" key is accepted unchanged — `analysis` is set to the partial
body and `error` stays `none`, so the result model receives a partial
result and no `MalformedResponseError` exists. -/
theorem partial_body_accepted :
    partialBody.signal_states.map Prod.fst = ["north", "south", "east"] ∧
    (handleAnalyzeTraffic ⟨sampleImages, none, false, none⟩
        (.success partialBody)).fst.analysis = some partialBody ∧
    (handleAnalyzeTraffic ⟨sampleImages, none, false, none⟩
        (.success partialBody)).fst.error = none := by
  decide

/-- C4 amended: the client performs no structural validation of a 2xx
response: whatever body it carries — including one missing direction
keys — is stored as the analysis result with the error cleared, and a
request is issued. -/
theorem success_body_accepted_unvalidated (st : AppState) (body : ResponseBody)
    (h : allImagesUploaded st.images = true) :
    handleAnalyzeTraffic st (.success body) =
      ({ st with loading := false, error := none, analysis := some body }, true) := by
  simp [handleAnalyzeTraffic, h, interceptResponse]

/-- Witness for the amended C4 at a concrete complete state. -/
theorem success_body_accepted_unvalidated_witness :
    allImagesUploaded sampleImages = true ∧
    handleAnalyzeTraffic ⟨sampleImages, none, false, none⟩ (.success sampleBody) =
      (⟨sampleImages, some sampleBody, false, none⟩, true) :=
  ⟨by decide,
   success_body_accepted_unvalidated ⟨sampleImages, none, false, none⟩ sampleBody (by decide)⟩

/-- C5 counterexample: one bulk drop of 5 files from the initial state
appends the coerced property key "undefined" (the 5th callback finds no
empty slot and `directions[4]` is JS `undefined`), so the key set is no
longer the four directions. -/
theorem bulk_five_files_adds_key :
    objKeys (onDrop initialImages
        [⟨"a", 1⟩, ⟨"b", 2⟩, ⟨"c", 3⟩, ⟨"d", 4⟩, ⟨"e", 5⟩]).fst =
      ["north", "south", "east", "west", "undefined"] ∧
    objKeys (onDrop initialImages
        [⟨"a", 1⟩, ⟨"b", 2⟩, ⟨"c", 3⟩, ⟨"d", 4⟩, ⟨"e", 5⟩]).fst ≠ directions := by
  decide

/-- C5 amended: for every state reachable via bulk drops of at most 4
files, per-slot uploads and removals on the four rendered direction
slots, the key set (in order) is exactly north, south, east, west. -/
theorem reachable_key_invariant (s : UploadState) (h : Reachable s) :
    objKeys s = directions := by
  induction h with
  | init => rfl
  | bulk s files _ hlen ih => exact onDrop_keys s files ih hlen
  | single s d f _ hd ih =>
      have hmem : d ∈ objKeys s := by rw [ih]; exact hd
      simpa only [handleIndividualUpload] using
        (objKeys_objSet_of_mem s d (some (mkImageData f)) hmem).trans ih
  | emptyPick s d _ ih => exact ih
  | rm s d _ hd ih =>
      have hmem : d ∈ objKeys s := by rw [ih]; exact hd
      simpa only [removeImage] using
        (objKeys_objSet_of_mem s d none hmem).trans ih

/-- Witness for the amended C5: the invariant evaluated along a concrete
reachable state. -/
theorem reachable_key_invariant_witness : objKeys initialImages = directions :=
  reachable_key_invariant initialImages Reachable.init

/-- C6 counterexample: on a 500 response whose body carries the `error`
field with the empty string — a present field — the interceptor does not
use the field's value but falls back to the status-synthesized message,
because `error.response.data?.error || ...` tests JS truthiness, not
presence. -/
theorem empty_error_field_falls_back :
    interceptResponse (.errorStatus 500 (some "")) = .error "Server error: 500" ∧
    "Server error: 500" ≠ "" :=
  ⟨rfl, by decide⟩

/-- C6 amended: on a non-2xx response the thrown message is the body's
`error` field when it is present and non-empty, and otherwise the
status-synthesized message (also when the field is present but empty);
when no response is received the message is the fixed network-failure
string, never a server-supplied one. -/
theorem failure_classifier (status : Nat) (msg : String) (h : msg ≠ "") :
    interceptResponse (.errorStatus status (some msg)) = .error msg ∧
    interceptResponse (.errorStatus status none) = .error (serverErrorMsg status) ∧
    interceptResponse (.errorStatus status (some "")) = .error (serverErrorMsg status) ∧
    interceptResponse .noResponse = .error noResponseMsg := by
  refine ⟨?_, rfl, rfl, rfl⟩
  simp [interceptResponse, h]

/-- Witness for the amended C6: Scenario 4 of the spec, a 500 with
`{"error":"model unavailable"}`. -/
theorem failure_classifier_witness :
    "model unavailable" ≠ "" ∧
    interceptResponse (.errorStatus 500 (some "model unavailable")) =
      .error "model unavailable" :=
  ⟨by decide, (failure_classifier 500 "model unavailable" (by decide)).1⟩

/-- C7: for a result carrying the four direction keys, `totalVehicles`
is the sum of the four vehicle counts and `greenSignals` is the number
of directions whose signal state equals "green"; both are pure functions
of the body (the projection cannot modify it). -/
theorem result_projections (a b c d : Nat) (sn ss se sw : String)
    (td : List (String × String)) (recs : List String) :
    totalVehicles ⟨[("north", a), ("south", b), ("east", c), ("west", d)], td,
        [("north", sn), ("south", ss), ("east", se), ("west", sw)], recs⟩
      = a + b + c + d ∧
    greenSignals ⟨[("north", a), ("south", b), ("east", c), ("west", d)], td,
        [("north", sn), ("south", ss), ("east", se), ("west", sw)], recs⟩
      = List.count "green" [sn, ss, se, sw] := by
  constructor
  · simp only [totalVehicles, List.map, List.foldl]
    omega
  · simp only [greenSignals, List.map, List.count, List.countP_eq_length_filter]

/-- C8 counterexample: while in the Failed phase (a stored error), a
bulk upload of one file mutates the store's state but emits no
notification, so the app keeps the old error (and even its own stale
snapshot) — the phase does not return to Idle on this mutation. -/
theorem failed_error_survives_bulk_mutation :
    (onDrop initialImages [⟨"a", 1⟩]).fst ≠ initialImages ∧
    processStoreOp ⟨initialImages, some sampleBody, false, some "previous failure"⟩
        (onDrop initialImages [⟨"a", 1⟩]) =
      ⟨initialImages, some sampleBody, false, some "previous failure"⟩ := by
  decide

/-- C8 amended: removal and per-slot upload always clear the stored
error (returning the phase to Idle) and never touch the stored analysis
result; a bulk upload also never touches the result, but clears the
error only when it emits a notification, i.e. when some decode callback
leaves all four slots filled. -/
theorem store_mutation_resets_failed (st : AppState) (u : UploadState) (d : String)
    (f : File) (files : List File) :
    (processStoreOp st (removeImage u d)).error = none ∧
    (processStoreOp st (removeImage u d)).analysis = st.analysis ∧
    (processStoreOp st (handleIndividualUpload u d (some f))).error = none ∧
    (processStoreOp st (handleIndividualUpload u d (some f))).analysis = st.analysis ∧
    (processStoreOp st (onDrop u files)).analysis = st.analysis ∧
    ((onDrop u files).snd ≠ [] → (processStoreOp st (onDrop u files)).error = none) := by
  refine ⟨rfl, rfl, rfl, rfl, ?_, ?_⟩
  · exact foldl_handleImagesUpload_analysis (onDrop u files).snd st
  · exact foldl_handleImagesUpload_error (onDrop u files).snd st

/-- Witness for the amended C8 at a concrete Failed state and a
notification-emitting bulk drop. -/
theorem store_mutation_resets_failed_witness :
    (onDrop initialImages [⟨"a", 1⟩, ⟨"b", 2⟩, ⟨"c", 3⟩, ⟨"d", 4⟩]).snd ≠ [] ∧
    (processStoreOp ⟨initialImages, some sampleBody, false, some "boom"⟩
        (onDrop initialImages [⟨"a", 1⟩, ⟨"b", 2⟩, ⟨"c", 3⟩, ⟨"d", 4⟩])).error = none :=
  ⟨by decide,
   (store_mutation_resets_failed ⟨initialImages, some sampleBody, false, some "boom"⟩
      initialImages "north" ⟨"x", 1⟩
      [⟨"a", 1⟩, ⟨"b", 2⟩, ⟨"c", 3⟩, ⟨"d", 4⟩]).2.2.2.2.2 (by decide)⟩

/-- C9 counterexample: a bulk upload of one file on the empty state
mutates the store's state yet invokes no on-change notification at all
(`onImagesUpload` is guarded by all-slots-filled inside `onDrop`). -/
theorem bulk_mutation_without_notification :
    (onDrop initialImages [⟨"a", 1⟩]).fst ≠ initialImages ∧
    (onDrop initialImages [⟨"a", 1⟩]).snd = [] := by
  decide

/-- C9 amended: removal and per-slot upload each invoke the notification
exactly once, with the complete new state; a bulk upload invokes it only
at callbacks after which every slot is filled, and each such payload is
a complete all-filled snapshot — never a partial or delta. -/
theorem notification_discipline (u : UploadState) (d : String) (f : File)
    (files : List File) :
    (removeImage u d).snd = [(removeImage u d).fst] ∧
    (handleIndividualUpload u d (some f)).snd
      = [(handleIndividualUpload u d (some f)).fst] ∧
    (∀ n ∈ (onDrop u files).snd, (objValues n).all Option.isSome = true) := by
  refine ⟨rfl, rfl, ?_⟩
  intro n hn
  exact dropGo_snd_all_complete files 0 _ [] files.length
    (by intro m hm; exact absurd hm (List.not_mem_nil m)) n hn

/-- Witness for the amended C9: a concrete 4-file drop whose final state
is among the emitted notifications, evaluated through the theorem. -/
theorem notification_discipline_witness :
    (objValues (onDrop initialImages
        [⟨"a", 1⟩, ⟨"b", 2⟩, ⟨"c", 3⟩, ⟨"d", 4⟩]).fst).all Option.isSome = true :=
  (notification_discipline initialImages "north" ⟨"x", 1⟩
      [⟨"a", 1⟩, ⟨"b", 2⟩, ⟨"c", 3⟩, ⟨"d", 4⟩]).2.2
    (onDrop initialImages [⟨"a", 1⟩, ⟨"b", 2⟩, ⟨"c", 3⟩, ⟨"d", 4⟩]).fst (by decide)

/-- C10: when the file-picker event carries no file, the per-slot upload
entry point leaves the state unchanged and emits no notification, for
every direction and every prior state. -/
theorem individual_upload_no_file_noop (images : UploadState) (direction : String) :
    handleIndividualUpload images direction none = (images, []) := rfl
